import Mathlib

/- Shallow embedding of the scroller demo (src/main.c): the starfield, the
text scroller, the raster bar, the sine color cyclers and the main loop.
The C code's float arithmetic is modelled over ℚ wherever every value the
program can produce is exactly representable (the scroll offset and the
star state: all literals involved, 1.5f, 0.05f, 0.2f, 1/200, are decimal
fractions, modelled by the corresponding rationals), and over ℝ for the
sine-based color and position formulas. Calls to the C library function
rand() are modelled by explicit natural-number arguments: each argument
stands for one draw of rand(), and the code's `rand() % k` becomes `r % k`.
Casts from float to int or Uint8 truncate toward zero in C; for the
nonnegative values produced by the color and bar formulas this is the
floor, and for the possibly negative projected coordinates it is modelled
by truncQ below. -/

namespace ScrollerDemo

/-- SCREEN_WIDTH from main.c. -/
def SCREEN_WIDTH : ℚ := 800

/-- SCREEN_HEIGHT from main.c. -/
def SCREEN_HEIGHT : ℚ := 600

/-- NUM_STARS from main.c. -/
def NUM_STARS : ℕ := 500

/-- STAR_SPREAD from main.c. -/
def STAR_SPREAD : ℚ := 512

/-- The Star struct from main.c: position (x, y, z) and a per-star speed. -/
structure Star where
  x : ℚ
  y : ℚ
  z : ℚ
  speed : ℚ
  deriving DecidableEq, Repr

/-- Body of the init_stars loop (main.c lines 204-209) for one star.
The four arguments rx, ry, rz, rs are the four successive rand() draws:
x = (rand() % STAR_SPREAD) - STAR_SPREAD/2, likewise y,
z = rand() % STAR_SPREAD, speed = (rand() % 100) / 200.0f + 0.2f. -/
def init_star (rx ry rz rs : ℕ) : Star :=
  { x := ((rx % 512 : ℕ) : ℚ) - 256
    y := ((ry % 512 : ℕ) : ℚ) - 256
    z := ((rz % 512 : ℕ) : ℚ)
    speed := ((rs % 100 : ℕ) : ℚ) / 200 + 0.2 }

/-- Body of the update_stars loop (main.c lines 214-221) for one star:
z -= speed; if z <= 0, respawn with fresh random x, y (the two rand()
draws are the arguments rx, ry) and z = STAR_SPREAD. -/
def updateStar (rx ry : ℕ) (s : Star) : Star :=
  if s.z - s.speed ≤ 0 then
    { x := ((rx % 512 : ℕ) : ℚ) - 256
      y := ((ry % 512 : ℕ) : ℚ) - 256
      z := STAR_SPREAD
      speed := s.speed }
  else
    { s with z := s.z - s.speed }

/-- n successive update_stars calls applied to one star; rnds k is the
pair of rand() draws available to the k-th call (consumed only when the
star respawns on that call). -/
def advanceN (rnds : ℕ → ℕ × ℕ) : ℕ → Star → Star
  | 0, s => s
  | n + 1, s => updateStar (rnds n).1 (rnds n).2 (advanceN rnds n s)

/-- update_stars (main.c lines 213-222) over a list of stars; rnd i is
the pair of rand() draws available to star i. -/
def update_stars (rnd : ℕ → ℕ × ℕ) (l : List Star) : List Star :=
  l.mapIdx fun i s => updateStar (rnd i).1 (rnd i).2 s

/-- C cast of a float to int: truncation toward zero. -/
def truncQ (q : ℚ) : ℤ :=
  if q < 0 then ⌈q⌉ else ⌊q⌋

/-- Point size formula from main.c line 234:
(1.0f - z / STAR_SPREAD) * 3. -/
def starSize (z : ℚ) : ℚ :=
  (1 - z / STAR_SPREAD) * 3

/-- Body of the render_stars loop (main.c lines 227-239) for one star:
only a star with z > 0 is projected (k = 128 / z, px = x*k + W/2,
py = y*k + H/2), and it is drawn only when (px, py) is on screen; the
result is the drawn SDL_Rect (px, py, size) or none when skipped. -/
def render_star (s : Star) : Option (ℤ × ℤ × ℤ) :=
  if 0 < s.z then
    let k : ℚ := 128 / s.z
    let px : ℤ := truncQ (s.x * k + SCREEN_WIDTH / 2)
    let py : ℤ := truncQ (s.y * k + SCREEN_HEIGHT / 2)
    if 0 ≤ px ∧ px < 800 ∧ 0 ≤ py ∧ py < 600 then
      some (px, py, truncQ (starSize s.z))
    else
      none
  else
    none

/-- One tick of the scroll offset (main.c lines 91-94):
scrollX -= 1.5f; if (scrollX < -textW) scrollX = SCREEN_WIDTH. -/
def tickScroll (textW : ℚ) (x : ℚ) : ℚ :=
  if x - 1.5 < -textW then SCREEN_WIDTH else x - 1.5

/-- Events as seen by the main loop: it reacts only to SDL_QUIT. -/
inductive Event where
  | quit
  | other
  deriving DecidableEq, Repr

/-- The mutable state of the main loop: is_running flag, the star array,
scrollX and time_counter. -/
structure DemoState where
  is_running : Bool
  stars : List Star
  scrollX : ℚ
  time_counter : ℚ
  deriving DecidableEq, Repr

/-- The event-drain loop (main.c lines 83-87): every pending event is
polled, and any SDL_QUIT sets is_running = 0. -/
def handleEvents (evs : List Event) (running : Bool) : Bool :=
  evs.foldl (fun r e => if e = Event.quit then false else r) running

/-- One full iteration of the main while loop body (main.c lines 81-114):
drain events, then unconditionally update stars, scroll offset and
time_counter (+= 0.05f); drawing does not change this state. -/
def tick (rnd : ℕ → ℕ × ℕ) (textW : ℚ) (evs : List Event) (s : DemoState) :
    DemoState :=
  { is_running := handleEvents evs s.is_running
    stars := update_stars rnd s.stars
    scrollX := tickScroll textW s.scrollX
    time_counter := s.time_counter + 0.05 }

/-- The main loop (main.c line 81): while is_running, run one tick with
that tick's pending events; once is_running is false the loop exits
without touching the state again. -/
def run (rnd : ℕ → ℕ × ℕ) (textW : ℚ) :
    List (List Event) → DemoState → DemoState
  | [], s => s
  | evs :: rest, s =>
    if s.is_running then run rnd textW rest (tick rnd textW evs s) else s

/-- Scroller red channel (main.c line 271): (sin(t) + 1) / 2 * 255. -/
noncomputable def scroller_r (t : ℝ) : ℝ :=
  (Real.sin t + 1) / 2 * 255

/-- Scroller green channel (main.c line 272): (sin(t + 2) + 1) / 2 * 255. -/
noncomputable def scroller_g (t : ℝ) : ℝ :=
  (Real.sin (t + 2) + 1) / 2 * 255

/-- Scroller blue channel (main.c line 273): (sin(t + 4) + 1) / 2 * 255. -/
noncomputable def scroller_b (t : ℝ) : ℝ :=
  (Real.sin (t + 4) + 1) / 2 * 255

/-- Raster-bar red channel (main.c line 248):
(sin(t * 0.8f) + 1) / 2 * 255. -/
noncomputable def raster_r (t : ℝ) : ℝ :=
  (Real.sin (t * 0.8) + 1) / 2 * 255

/-- Raster-bar green channel (main.c line 249):
(sin(t * 0.8f + 2) + 1) / 2 * 255. -/
noncomputable def raster_g (t : ℝ) : ℝ :=
  (Real.sin (t * 0.8 + 2) + 1) / 2 * 255

/-- Raster-bar blue channel (main.c line 250):
(sin(t * 0.8f + 4) + 1) / 2 * 255. -/
noncomputable def raster_b (t : ℝ) : ℝ :=
  (Real.sin (t * 0.8 + 4) + 1) / 2 * 255

/-- Raster-bar vertical position (main.c line 259), with
bar.h = SCREEN_HEIGHT / 8 = 75: (sin(t) + 1) / 2 * (600 - 75). -/
noncomputable def bar_y (t : ℝ) : ℝ :=
  (Real.sin t + 1) / 2 * (600 - 600 / 8)

/-- C cast of a nonnegative float to Uint8 (or int): truncation toward
zero, which on nonnegative values is the floor. -/
noncomputable def asByte (x : ℝ) : ℤ := ⌊x⌋

/-- Closed form of the scroll offset in the C3 scenario (offset 800, step
1.5, textW 400): for the first 800 ticks no wrap occurs and the offset is
exactly 800 - 1.5 k. -/
theorem scroll_closed_form (k : ℕ) (hk : k ≤ 800) :
    (tickScroll 400)^[k] SCREEN_WIDTH = 800 - 1.5 * k := by
  induction k with
  | zero => simp [SCREEN_WIDTH]
  | succ n ih =>
    have hn : n ≤ 800 := Nat.le_of_succ_le hk
    have hb : ((n : ℚ) + 1) ≤ 800 := by
      have h := (Nat.cast_le (α := ℚ)).mpr hk
      push_cast at h
      linarith
    rw [Function.iterate_succ_apply', ih hn]
    have hcond : ¬(800 - 1.5 * (n : ℚ) - 1.5 < -(400 : ℚ)) := by
      norm_num
      linarith
    simp only [tickScroll, if_neg hcond]
    push_cast
    ring

/-- C3: the claim as stated is false: after exactly 800 ticks the offset
is exactly -400, which is not strictly below -400, and no reset to the
screen width has occurred on that tick. -/
theorem C3_counterexample :
    (tickScroll 400)^[800] SCREEN_WIDTH = -400 ∧
    ¬((tickScroll 400)^[800] SCREEN_WIDTH < -400) ∧
    (tickScroll 400)^[800] SCREEN_WIDTH ≠ SCREEN_WIDTH := by
  have h := scroll_closed_form 800 le_rfl
  refine ⟨?_, ?_, ?_⟩ <;> rw [h] <;> norm_num [SCREEN_WIDTH]

/-- C3 (amended): starting from offset 800 with step 1.5 and textW 400,
the offset equals 800 - 1.5 k for the first 800 ticks and never falls
strictly below -400 in that range; after tick 800 it is exactly -400, and
the offset first passes below -400 on tick 801, on which it is reset to
the screen width 800. -/
theorem C3_scroll_wrap_at_801 :
    (∀ k : ℕ, k ≤ 800 →
      (tickScroll 400)^[k] SCREEN_WIDTH = 800 - 1.5 * k ∧
      ¬((tickScroll 400)^[k] SCREEN_WIDTH < -400)) ∧
    (tickScroll 400)^[800] SCREEN_WIDTH = -400 ∧
    (tickScroll 400)^[801] SCREEN_WIDTH = SCREEN_WIDTH := by
  have h800 : (tickScroll 400)^[800] SCREEN_WIDTH = -400 := by
    have h := scroll_closed_form 800 le_rfl
    rw [h]; norm_num
  refine ⟨fun k hk => ⟨scroll_closed_form k hk, ?_⟩, h800, ?_⟩
  · rw [scroll_closed_form k hk]
    have hb : ((k : ℚ)) ≤ 800 := by exact_mod_cast hk
    norm_num
    linarith
  · rw [Function.iterate_succ_apply', h800]
    norm_num [tickScroll, SCREEN_WIDTH]

/-- Witness for C3_scroll_wrap_at_801 at the concrete tick 800. -/
theorem C3_scroll_wrap_at_801_witness :
    (tickScroll 400)^[800] SCREEN_WIDTH = 800 - 1.5 * ((800 : ℕ) : ℚ) :=
  (C3_scroll_wrap_at_801.1 800 (by norm_num)).1

/-- C4: each tick the scroll offset decreases by exactly the fixed step
1.5 (and hence strictly decreases) when no wrap occurs, and whenever the
decremented offset is strictly below -textW it is set, in that same tick,
to exactly the screen width (no averaging or interpolation). -/
theorem C4_scroll_step (w x : ℚ) :
    (¬(x - 1.5 < -w) → tickScroll w x = x - 1.5 ∧ tickScroll w x < x) ∧
    (x - 1.5 < -w → tickScroll w x = SCREEN_WIDTH) := by
  constructor
  · intro h
    have he : tickScroll w x = x - 1.5 := by simp only [tickScroll, if_neg h]
    exact ⟨he, by rw [he]; linarith⟩
  · intro h
    simp only [tickScroll, if_pos h]

/-- Witness for C4_scroll_step at concrete offsets 800 (no wrap) and
-399 (wrap). -/
theorem C4_scroll_step_witness :
    tickScroll 400 800 = 800 - 1.5 ∧ tickScroll 400 800 < 800 ∧
    tickScroll 400 (-399) = SCREEN_WIDTH :=
  ⟨((C4_scroll_step 400 800).1 (by norm_num)).1,
   ((C4_scroll_step 400 800).1 (by norm_num)).2,
   (C4_scroll_step 400 (-399)).2 (by norm_num)⟩

/-- update_stars never modifies a star's speed. -/
theorem updateStar_speed (rx ry : ℕ) (s : Star) :
    (updateStar rx ry s).speed = s.speed := by
  unfold updateStar
  split <;> rfl

/-- Speed bounds produced by init_stars: speed lies in [0.2, 0.695] (so
it is strictly positive). -/
theorem init_star_speed_bounds (rx ry rz rs : ℕ) :
    (0.2 : ℚ) ≤ (init_star rx ry rz rs).speed ∧
    (init_star rx ry rz rs).speed ≤ 0.695 := by
  unfold init_star
  have h0 : (0 : ℚ) ≤ ((rs % 100 : ℕ) : ℚ) := Nat.cast_nonneg _
  have h99 : ((rs % 100 : ℕ) : ℚ) ≤ 99 := by
    have : rs % 100 ≤ 99 := Nat.le_of_lt_succ (Nat.mod_lt _ (by norm_num))
    exact_mod_cast this
  constructor <;> simp only <;> norm_num <;> linarith

/-- Depth bounds produced by init_stars: z lies in [0, STAR_SPREAD). -/
theorem init_star_z_bounds (rx ry rz rs : ℕ) :
    0 ≤ (init_star rx ry rz rs).z ∧ (init_star rx ry rz rs).z < STAR_SPREAD := by
  simp only [init_star, STAR_SPREAD]
  refine ⟨Nat.cast_nonneg _, ?_⟩
  have : rz % 512 < 512 := Nat.mod_lt _ (by norm_num)
  exact_mod_cast this

/-- One update_stars call keeps z in (0, STAR_SPREAD] provided z was at
most STAR_SPREAD and the speed is positive. -/
theorem updateStar_z_bounds (rx ry : ℕ) (s : Star) (hz : s.z ≤ STAR_SPREAD)
    (hs : 0 < s.speed) :
    0 < (updateStar rx ry s).z ∧ (updateStar rx ry s).z ≤ STAR_SPREAD := by
  unfold updateStar
  split
  · exact ⟨by norm_num [STAR_SPREAD], le_rfl⟩
  · rename_i h
    push_neg at h
    exact ⟨h, by simp only; linarith⟩

/-- advanceN never modifies a star's speed. -/
theorem advanceN_speed (rnds : ℕ → ℕ × ℕ) (n : ℕ) (s : Star) :
    (advanceN rnds n s).speed = s.speed := by
  induction n with
  | zero => rfl
  | succ m ih => rw [advanceN, updateStar_speed, ih]

/-- After at least one update, z lies in (0, STAR_SPREAD], provided the
star started with z ≤ STAR_SPREAD and positive speed. -/
theorem advanceN_z_bounds (rnds : ℕ → ℕ × ℕ) (n : ℕ) (s : Star)
    (hz : s.z ≤ STAR_SPREAD) (hs : 0 < s.speed) (hn : 1 ≤ n) :
    0 < (advanceN rnds n s).z ∧ (advanceN rnds n s).z ≤ STAR_SPREAD := by
  induction n with
  | zero => omega
  | succ m ih =>
    rw [advanceN]
    rcases Nat.eq_or_lt_of_le hn with h1 | h1
    · have hm : m = 0 := by omega
      subst hm
      exact updateStar_z_bounds _ _ s hz hs
    · have hm : 1 ≤ m := by omega
      have hsp : 0 < (advanceN rnds m s).speed := by
        rw [advanceN_speed]; exact hs
      exact updateStar_z_bounds _ _ _ (ih hm).2 hsp

/-- C2: for every star created by init_stars and every n ≥ 1, after n
update_stars calls the star's z lies in (0, STAR_SPREAD]; moreover
whenever z would fall to or below 0 during a call, that same call resets
the star to z = STAR_SPREAD with fresh random x and y. -/
theorem C2_star_z_invariant (rx ry rz rs : ℕ) (rnds : ℕ → ℕ × ℕ) (n : ℕ)
    (hn : 1 ≤ n) :
    (0 < (advanceN rnds n (init_star rx ry rz rs)).z ∧
      (advanceN rnds n (init_star rx ry rz rs)).z ≤ STAR_SPREAD) ∧
    ∀ (s : Star) (ux uy : ℕ), s.z - s.speed ≤ 0 →
      (updateStar ux uy s).z = STAR_SPREAD ∧
      (updateStar ux uy s).x = ((ux % 512 : ℕ) : ℚ) - 256 ∧
      (updateStar ux uy s).y = ((uy % 512 : ℕ) : ℚ) - 256 := by
  constructor
  · refine advanceN_z_bounds rnds n _ ?_ ?_ hn
    · exact le_of_lt (init_star_z_bounds rx ry rz rs).2
    · have h := (init_star_speed_bounds rx ry rz rs).1
      norm_num at h
      linarith
  · intro s ux uy h
    unfold updateStar
    rw [if_pos h]
    exact ⟨rfl, rfl, rfl⟩

/-- Witness for C2_star_z_invariant: the star built from all-zero rand()
draws, after one update. -/
theorem C2_star_z_invariant_witness :
    (0 < (advanceN (fun _ => (0, 0)) 1 (init_star 0 0 0 0)).z ∧
      (advanceN (fun _ => (0, 0)) 1 (init_star 0 0 0 0)).z ≤ STAR_SPREAD) ∧
    ((updateStar 3 4 (Star.mk 0 0 0 1)).z = STAR_SPREAD ∧
      (updateStar 3 4 (Star.mk 0 0 0 1)).x = ((3 % 512 : ℕ) : ℚ) - 256 ∧
      (updateStar 3 4 (Star.mk 0 0 0 1)).y = ((4 % 512 : ℕ) : ℚ) - 256) :=
  ⟨(C2_star_z_invariant 0 0 0 0 (fun _ => (0, 0)) 1 (by norm_num)).1,
   (C2_star_z_invariant 0 0 0 0 (fun _ => (0, 0)) 1 (by norm_num)).2
     (Star.mk 0 0 0 1) 3 4 (by norm_num)⟩

/-- C8: the projected point size is strictly antitone in depth on
(0, STAR_SPREAD] — the nearer star gets the strictly larger size — and
the size never exceeds the 3 px cap. -/
theorem C8_size_antitone_capped (z1 z2 : ℚ) (h1 : 0 < z1) (h12 : z1 < z2)
    (_h2 : z2 ≤ STAR_SPREAD) :
    starSize z2 < starSize z1 ∧ starSize z1 ≤ 3 ∧ starSize z2 ≤ 3 := by
  unfold starSize STAR_SPREAD
  norm_num
  refine ⟨by linarith, by linarith, by linarith⟩

/-- Witness for C8_size_antitone_capped at the concrete depths 1 and 2. -/
theorem C8_size_antitone_capped_witness :
    starSize 2 < starSize 1 ∧ starSize 1 ≤ 3 ∧ starSize 2 ≤ 3 :=
  C8_size_antitone_capped 1 2 (by norm_num) (by norm_num)
    (by norm_num [STAR_SPREAD])

/-- C9: the perspective divide 128/z happens only behind the z > 0 guard:
a star is projected (drawn) only when its z is strictly positive; a star
initialized with a rand() draw that makes z exactly 0 is skipped by
rendering, and its very next update respawns it at z = STAR_SPREAD > 0. -/
theorem C9_projection_guard :
    (∀ s : Star, render_star s ≠ none → 0 < s.z) ∧
    (∀ rx ry rs : ℕ,
      (init_star rx ry 0 rs).z = 0 ∧
      render_star (init_star rx ry 0 rs) = none ∧
      ∀ ux uy : ℕ,
        (updateStar ux uy (init_star rx ry 0 rs)).z = STAR_SPREAD ∧
        0 < (updateStar ux uy (init_star rx ry 0 rs)).z) := by
  constructor
  · intro s h
    by_contra hz
    exact h (by simp [render_star, hz])
  · intro rx ry rs
    have hz : (init_star rx ry 0 rs).z = 0 := by
      simp [init_star]
    have hsp := (init_star_speed_bounds rx ry 0 rs).1
    refine ⟨hz, by simp [render_star, hz], fun ux uy => ?_⟩
    have hresp : (init_star rx ry 0 rs).z - (init_star rx ry 0 rs).speed ≤ 0 := by
      rw [hz]
      norm_num at hsp ⊢
      linarith
    constructor
    · unfold updateStar
      rw [if_pos hresp]
    · unfold updateStar
      rw [if_pos hresp]
      norm_num [STAR_SPREAD]

/-- Witness for C9_projection_guard: the star at the origin with z = 1
and speed 1 is rendered, so the guard gives 0 < 1. -/
theorem C9_projection_guard_witness :
    0 < (Star.mk 0 0 1 1).z ∧ (init_star 0 0 0 0).z = 0 :=
  ⟨C9_projection_guard.1 (Star.mk 0 0 1 1)
    (by
      have h : render_star (Star.mk 0 0 1 1) = some (400, 300, 2) := by
        norm_num [render_star, truncQ, starSize, STAR_SPREAD, SCREEN_WIDTH,
          SCREEN_HEIGHT]
      rw [h]
      exact fun hc => Option.noConfusion hc),
   (C9_projection_guard.2 0 0 0).1⟩

/-- C10: every star's speed is set at initialization to a value in
[0.2, 0.695] (hence strictly positive), no update_stars call ever changes
it, and while no respawn is triggered each update strictly decreases the
star's z. -/
theorem C10_speed_invariant :
    (∀ rx ry rz rs : ℕ,
      (0.2 : ℚ) ≤ (init_star rx ry rz rs).speed ∧
      (init_star rx ry rz rs).speed ≤ 0.695 ∧
      0 < (init_star rx ry rz rs).speed) ∧
    (∀ (s : Star) (ux uy : ℕ), (updateStar ux uy s).speed = s.speed) ∧
    (∀ (s : Star) (ux uy : ℕ), 0 < s.speed → 0 < s.z - s.speed →
      (updateStar ux uy s).z < s.z) := by
  refine ⟨fun rx ry rz rs => ?_, fun s ux uy => updateStar_speed ux uy s,
    fun s ux uy hs hz => ?_⟩
  · obtain ⟨h1, h2⟩ := init_star_speed_bounds rx ry rz rs
    refine ⟨h1, h2, ?_⟩
    norm_num at h1 ⊢
    linarith
  · unfold updateStar
    rw [if_neg (by linarith)]
    simp only
    linarith

/-- Witness for C10_speed_invariant: the all-zero-draw star and the unit
star with z = 2 and speed 1. -/
theorem C10_speed_invariant_witness :
    ((0.2 : ℚ) ≤ (init_star 0 0 0 0).speed ∧
      (init_star 0 0 0 0).speed ≤ 0.695 ∧
      0 < (init_star 0 0 0 0).speed) ∧
    (updateStar 0 0 (Star.mk 0 0 2 1)).speed = (Star.mk 0 0 2 1).speed ∧
    (updateStar 0 0 (Star.mk 0 0 2 1)).z < (Star.mk 0 0 2 1).z :=
  ⟨C10_speed_invariant.1 0 0 0 0,
   C10_speed_invariant.2.1 (Star.mk 0 0 2 1) 0 0,
   C10_speed_invariant.2.2 (Star.mk 0 0 2 1) 0 0 (by norm_num) (by norm_num)⟩

/-- Draining an event queue from an already-false is_running flag leaves
it false. -/
theorem handleEvents_false (evs : List Event) :
    handleEvents evs false = false := by
  induction evs with
  | nil => rfl
  | cons e rest ih =>
    unfold handleEvents at ih ⊢
    simp only [List.foldl_cons]
    have h : (if e = Event.quit then false else false) = false := by
      split <;> rfl
    rw [h]
    exact ih

/-- If a quit event is among the drained events, the event loop leaves
is_running false, whatever it was before. -/
theorem handleEvents_quit :
    ∀ (evs : List Event) (b : Bool), Event.quit ∈ evs →
      handleEvents evs b = false := by
  intro evs
  induction evs with
  | nil => intro b h; cases h
  | cons e rest ih =>
    intro b h
    unfold handleEvents
    simp only [List.foldl_cons]
    by_cases he : e = Event.quit
    · rw [if_pos he]
      exact handleEvents_false rest
    · rw [if_neg he]
      have hr : Event.quit ∈ rest := by
        rcases List.mem_cons.mp h with h1 | h1
        · exact absurd h1.symm he
        · exact h1
      exact ih b hr

/-- Once is_running is false, the main loop performs no further tick: it
returns the state unchanged. -/
theorem run_stopped (rnd : ℕ → ℕ × ℕ) (w : ℚ) (ts : List (List Event))
    (s : DemoState) (h : s.is_running = false) : run rnd w ts s = s := by
  cases ts with
  | nil => rfl
  | cons t rest =>
    unfold run
    rw [h]
    simp

/-- C1: the claim as stated is false on the code: when the quit event is
delivered on the very first tick, the loop does stop (is_running ends
false), but the update phase of that same tick still runs after the quit
event is observed, so the time counter ends at 0.05, not 0. -/
theorem C1_counterexample :
    (run (fun _ => (0, 0)) 400 [[Event.quit]]
        (DemoState.mk true [] SCREEN_WIDTH 0)).is_running = false ∧
    (run (fun _ => (0, 0)) 400 [[Event.quit]]
        (DemoState.mk true [] SCREEN_WIDTH 0)).time_counter = 0.05 ∧
    (0.05 : ℚ) ≠ 0 := by
  refine ⟨rfl, ?_, by norm_num⟩
  show (0 : ℚ) + 0.05 = 0.05
  norm_num

/-- C1 (amended): a quit event delivered at any tick while the loop is
RUNNING makes the loop transition to STOPPED within that same tick; that
tick's update phase still advances the stars, the scroll offset and the
time counter exactly once more after the quit event is observed, and no
further tick (hence no further advancement) occurs afterwards. -/
theorem C1_quit_stops (rnd : ℕ → ℕ × ℕ) (w : ℚ) (evs : List Event)
    (s : DemoState) (h : Event.quit ∈ evs) :
    (tick rnd w evs s).is_running = false ∧
    (tick rnd w evs s).time_counter = s.time_counter + 0.05 ∧
    (tick rnd w evs s).scrollX = tickScroll w s.scrollX ∧
    (tick rnd w evs s).stars = update_stars rnd s.stars ∧
    ∀ ts : List (List Event),
      run rnd w ts (tick rnd w evs s) = tick rnd w evs s := by
  have hr : (tick rnd w evs s).is_running = false := by
    simp only [tick]
    exact handleEvents_quit evs s.is_running h
  exact ⟨hr, rfl, rfl, rfl, fun ts => run_stopped rnd w ts _ hr⟩

/-- Witness for C1_quit_stops: quit delivered on the first tick of the
initial state; afterwards a whole further tick's worth of events changes
nothing. -/
theorem C1_quit_stops_witness :
    (tick (fun _ => (0, 0)) 400 [Event.quit]
        (DemoState.mk true [] SCREEN_WIDTH 0)).is_running = false ∧
    run (fun _ => (0, 0)) 400 [[Event.other]]
        (tick (fun _ => (0, 0)) 400 [Event.quit]
          (DemoState.mk true [] SCREEN_WIDTH 0)) =
      tick (fun _ => (0, 0)) 400 [Event.quit]
        (DemoState.mk true [] SCREEN_WIDTH 0) :=
  ⟨(C1_quit_stops (fun _ => (0, 0)) 400 [Event.quit]
      (DemoState.mk true [] SCREEN_WIDTH 0) (by decide)).1,
   (C1_quit_stops (fun _ => (0, 0)) 400 [Event.quit]
      (DemoState.mk true [] SCREEN_WIDTH 0) (by decide)).2.2.2.2
     [[Event.other]]⟩

/-- Any channel of the form (sin a + 1) / 2 * 255 lies in [0, 255]. -/
theorem chan_bounds (a : ℝ) :
    0 ≤ (Real.sin a + 1) / 2 * 255 ∧ (Real.sin a + 1) / 2 * 255 ≤ 255 := by
  have h1 := Real.neg_one_le_sin a
  have h2 := Real.sin_le_one a
  constructor <;> nlinarith

/-- C5: both color cyclers are periodic with period 2π/rate — 2π for the
scroller (rate 1) and 2π/0.8 for the raster bar (rate 0.8) — and every
channel they produce lies in [0, 255]. -/
theorem C5_cyclers_periodic_bounded (t : ℝ) :
    scroller_r (t + 2 * Real.pi) = scroller_r t ∧
    scroller_g (t + 2 * Real.pi) = scroller_g t ∧
    scroller_b (t + 2 * Real.pi) = scroller_b t ∧
    raster_r (t + 2 * Real.pi / 0.8) = raster_r t ∧
    raster_g (t + 2 * Real.pi / 0.8) = raster_g t ∧
    raster_b (t + 2 * Real.pi / 0.8) = raster_b t ∧
    (0 ≤ scroller_r t ∧ scroller_r t ≤ 255) ∧
    (0 ≤ scroller_g t ∧ scroller_g t ≤ 255) ∧
    (0 ≤ scroller_b t ∧ scroller_b t ≤ 255) ∧
    (0 ≤ raster_r t ∧ raster_r t ≤ 255) ∧
    (0 ≤ raster_g t ∧ raster_g t ≤ 255) ∧
    (0 ≤ raster_b t ∧ raster_b t ≤ 255) := by
  refine ⟨?_, ?_, ?_, ?_, ?_, ?_, chan_bounds t, chan_bounds (t + 2),
    chan_bounds (t + 4), chan_bounds (t * 0.8), chan_bounds (t * 0.8 + 2),
    chan_bounds (t * 0.8 + 4)⟩
  · unfold scroller_r
    rw [Real.sin_add_two_pi]
  · unfold scroller_g
    rw [show t + 2 * Real.pi + 2 = (t + 2) + 2 * Real.pi from by ring,
      Real.sin_add_two_pi]
  · unfold scroller_b
    rw [show t + 2 * Real.pi + 4 = (t + 4) + 2 * Real.pi from by ring,
      Real.sin_add_two_pi]
  · unfold raster_r
    rw [show (t + 2 * Real.pi / 0.8) * 0.8 = t * 0.8 + 2 * Real.pi from by
      ring, Real.sin_add_two_pi]
  · unfold raster_g
    rw [show (t + 2 * Real.pi / 0.8) * 0.8 + 2 = (t * 0.8 + 2) + 2 * Real.pi
      from by ring, Real.sin_add_two_pi]
  · unfold raster_b
    rw [show (t + 2 * Real.pi / 0.8) * 0.8 + 4 = (t * 0.8 + 4) + 2 * Real.pi
      from by ring, Real.sin_add_two_pi]

/-- Witness for C5_cyclers_periodic_bounded at the concrete time 0. -/
theorem C5_cyclers_periodic_bounded_witness :
    scroller_r (0 + 2 * Real.pi) = scroller_r 0 ∧
    raster_r (0 + 2 * Real.pi / 0.8) = raster_r 0 ∧
    0 ≤ scroller_r 0 ∧ scroller_r 0 ≤ 255 :=
  ⟨(C5_cyclers_periodic_bounded 0).1,
   (C5_cyclers_periodic_bounded 0).2.2.2.1,
   (C5_cyclers_periodic_bounded 0).2.2.2.2.2.2.1⟩

/-- sin 4 is well below -1/2: 4 = (4 - π) + π with 4 - π ∈ (0, 1], so
sin 4 = -sin (4 - π) and the cubic lower bound applies. -/
theorem sin_four_lt : Real.sin 4 < -(1 / 2) := by
  have hpi1 : (3.141592 : ℝ) < Real.pi := Real.pi_gt_d6
  have hpi2 : Real.pi < 3.141593 := Real.pi_lt_d6
  have hu1 : (0 : ℝ) < 4 - Real.pi := by linarith
  have hu2 : (4 : ℝ) - Real.pi ≤ 1 := by linarith
  have hcube := Real.sin_gt_sub_cube hu1 hu2
  have h4 : Real.sin 4 = -Real.sin (4 - Real.pi) := by
    have harg : (4 : ℝ) = (4 - Real.pi) + Real.pi := by ring
    nth_rewrite 1 [harg]
    rw [Real.sin_add_pi]
  rw [h4]
  have h : (1 : ℝ) / 2 < Real.sin (4 - Real.pi) := by
    nlinarith [hcube, hpi1, hpi2, sq_nonneg (4 - Real.pi)]
  linarith

/-- C6: the claim as stated is false on the code: at time_counter = 0 the
blue channel of the scroller tint, computed from phase offset 4, is
neither 127 nor 128 (its pre-cast value (sin 4 + 1)/2·255 is below 127,
since sin 4 < -1/2). -/
theorem C6_counterexample :
    asByte (scroller_b 0) ≠ 127 ∧ asByte (scroller_b 0) ≠ 128 := by
  have hb : scroller_b 0 = (Real.sin 4 + 1) / 2 * 255 := by
    unfold scroller_b
    norm_num
  have hs := sin_four_lt
  have hlt : scroller_b 0 < 127 := by
    rw [hb]
    nlinarith
  have hfloor : asByte (scroller_b 0) < 127 := by
    unfold asByte
    exact Int.floor_lt.mpr (by exact_mod_cast hlt)
  exact ⟨by omega, by omega⟩

/-- sin 2 is well above 3/4: sin 2 = sin (π - 2) with 1 < π - 2 ≤ π/2,
so sin 2 exceeds sin 1, which the cubic lower bound puts above 3/4. -/
theorem sin_two_gt : (3 : ℝ) / 4 < Real.sin 2 := by
  have hpi1 : (3.141592 : ℝ) < Real.pi := Real.pi_gt_d6
  have hpi2 : Real.pi < 3.141593 := Real.pi_lt_d6
  have h1 : (3 : ℝ) / 4 < Real.sin 1 := by
    have h := Real.sin_gt_sub_cube (by norm_num : (0 : ℝ) < 1) le_rfl
    norm_num at h
    linarith
  have h2 : Real.sin 1 < Real.sin (Real.pi - 2) := by
    apply Real.sin_lt_sin_of_lt_of_le_pi_div_two
    · linarith
    · linarith
    · linarith
  have h3 : Real.sin (Real.pi - 2) = Real.sin 2 := Real.sin_pi_sub 2
  linarith

/-- C6 (amended): at time_counter = 0 the scroller tint is fully
deterministic; each channel is ((sin (0 + offset) + 1)/2)·255 with
offsets 0, 2, 4. The red channel has pre-cast value exactly 127.5, so
its byte is 127; the green and blue channels take the sine formula's
values at 2 and 4, and neither byte is 127 or 128: the green byte is at
least 129 (sin 2 > 3/4) and the blue byte is below 127 (sin 4 < -1/2). -/
theorem C6_tint_at_zero :
    scroller_r 0 = 255 / 2 ∧
    asByte (scroller_r 0) = 127 ∧
    (scroller_g 0 = (Real.sin 2 + 1) / 2 * 255 ∧
      asByte (scroller_g 0) ≠ 127 ∧ asByte (scroller_g 0) ≠ 128) ∧
    (scroller_b 0 = (Real.sin 4 + 1) / 2 * 255 ∧
      asByte (scroller_b 0) ≠ 127 ∧ asByte (scroller_b 0) ≠ 128) := by
  have hr : scroller_r 0 = 255 / 2 := by
    unfold scroller_r
    rw [Real.sin_zero]
    ring
  have hfl : asByte (scroller_r 0) = 127 := by
    unfold asByte
    rw [hr]
    norm_num [Int.floor_eq_iff]
  have hg : scroller_g 0 = (Real.sin 2 + 1) / 2 * 255 := by
    unfold scroller_g
    norm_num
  have hgv : (129 : ℝ) ≤ scroller_g 0 := by
    rw [hg]
    nlinarith [sin_two_gt]
  have hgf : (129 : ℤ) ≤ asByte (scroller_g 0) := by
    unfold asByte
    exact Int.le_floor.mpr (by exact_mod_cast hgv)
  have hb : scroller_b 0 = (Real.sin 4 + 1) / 2 * 255 := by
    unfold scroller_b
    norm_num
  have hbv : scroller_b 0 < 127 := by
    rw [hb]
    nlinarith [sin_four_lt]
  have hbf : asByte (scroller_b 0) < 127 := by
    unfold asByte
    exact Int.floor_lt.mpr (by exact_mod_cast hbv)
  exact ⟨hr, hfl, ⟨hg, by omega, by omega⟩, ⟨hb, by omega, by omega⟩⟩

/-- C7: for every time counter the raster bar's vertical position,
(sin t + 1)/2 · (600 - 600/8), lies in [0, 600 - 600/8] = [0, 525], both
as a real value and after the C int cast. -/
theorem C7_bar_y_bounds (t : ℝ) :
    (0 ≤ bar_y t ∧ bar_y t ≤ 600 - 600 / 8) ∧
    (0 ≤ asByte (bar_y t) ∧ asByte (bar_y t) ≤ 525) := by
  have h1 := Real.neg_one_le_sin t
  have h2 := Real.sin_le_one t
  have hA : 0 ≤ bar_y t := by
    unfold bar_y
    nlinarith
  have hB : bar_y t ≤ 600 - 600 / 8 := by
    unfold bar_y
    nlinarith
  refine ⟨⟨hA, hB⟩, ?_, ?_⟩
  · exact Int.floor_nonneg.mpr hA
  · have hle : bar_y t ≤ ((525 : ℤ) : ℝ) := by
      push_cast
      linarith
    have := Int.floor_mono hle
    simpa using this

/-- Witness for C7_bar_y_bounds at the concrete time 0. -/
theorem C7_bar_y_bounds_witness :
    (0 ≤ bar_y 0 ∧ bar_y 0 ≤ 600 - 600 / 8) ∧
    (0 ≤ asByte (bar_y 0) ∧ asByte (bar_y 0) ≤ 525) :=
  C7_bar_y_bounds 0

end ScrollerDemo
